import Mathlib

/-!
Shallow embedding of `load_attack` from `app.py` (MITRE ATT&CK Key Generator).

The function receives JSON-like bundles.  We model the fields that the code
reads with `Option`-typed fields (a missing key in the Python dict is `none`;
`dict.get(k, d)` becomes `Option.getD`).  Python dict construction with
overwriting assignment is modelled by prepending bindings to an association
list, so that `List.lookup` (first match) returns the most recent binding,
exactly as a Python dict lookup returns the last value written.

`pd.DataFrame(rows).drop_duplicates()` keeps the first occurrence of every
duplicated row, in order; `dedupSeen` models this directly.  When `rows` is
empty, `pd.DataFrame([])` has no columns, so the subsequent column access
`df["tactic_name"]` raises `KeyError: 'tactic_name'`; the model returns
`Except.error` in that case.  `df.sort_values(by=["tactic_sort",
"technique_name"])` with several keys is a stable lexicographic sort with
NaN sorted last (the default `na_position="last"`); any stable sort agrees
with it, so the model uses `List.insertionSort` (which is stable) with the
same key.
-/

namespace MitreAttack

/-- An entry of an `external_references` list; the code reads `source_name`
and `external_id`. -/
structure ExternalRef where
  source_name : Option String
  external_id : Option String
deriving DecidableEq, Repr

/-- An entry of a `kill_chain_phases` list; the code reads `kill_chain_name`
and `phase_name`. -/
structure KillChainPhase where
  kill_chain_name : Option String
  phase_name : Option String
deriving DecidableEq, Repr

/-- A STIX object, restricted to the fields `load_attack` reads. -/
structure StixObject where
  type : Option String
  id : Option String
  x_mitre_shortname : Option String
  name : Option String
  external_references : Option (List ExternalRef)
  revoked : Option Bool
  x_mitre_deprecated : Option Bool
  x_mitre_domains : Option (List String)
  kill_chain_phases : Option (List KillChainPhase)
  x_mitre_tactics : Option (List String)
  tactic_refs : Option (List String)
deriving DecidableEq, Repr

/-- A bundle: a mapping with an `objects` key (possibly missing). -/
structure Bundle where
  objects : Option (List StixObject)
deriving DecidableEq, Repr

/-- Value stored in `tactics_by_id`. -/
structure TacticRecId where
  shortname : Option String
  tactic_name : String
  tactic_id : String
deriving DecidableEq, Repr

/-- Value stored in `tactics_by_shortname`. -/
structure TacticRec where
  tactic_name : String
  tactic_id : String
deriving DecidableEq, Repr

/-- An output row of `load_attack`. -/
structure Row where
  tactic_name : String
  tactic_id : String
  technique_name : String
  technique_id : String
deriving DecidableEq, Repr

/-- Python truthiness of an optional boolean field (`None` is falsy). -/
def truthy : Option Bool → Bool
  | some b => b
  | none => false

/-- The `code = ""` / `for ref in ...: if ref.get("source_name") ==
"mitre-attack": code = ref.get("external_id", ""); break` loop, used both for
tactic codes (lines 26-30) and technique codes (lines 52-56). -/
def resolveCode : List ExternalRef → String
  | [] => ""
  | r :: rs =>
    if r.source_name = some "mitre-attack" then r.external_id.getD ""
    else resolveCode rs

/-- Lines 11-15: first `x-mitre-matrix` object's `tactic_refs`, else `[]`. -/
def extractTacticOrder (objs : List StixObject) : List String :=
  match objs.find? (fun o => o.type == some "x-mitre-matrix") with
  | some o => o.tactic_refs.getD []
  | none => []

/-- One iteration of the tactic-collection loop (lines 20-40): the pair of
association lists models `(tactics_by_id, tactics_by_shortname)`. -/
def tacticStep
    (acc : List (Option String × TacticRecId) × List (Option String × TacticRec))
    (o : StixObject) :
    List (Option String × TacticRecId) × List (Option String × TacticRec) :=
  if o.type = some "x-mitre-tactic" then
    let code := resolveCode (o.external_references.getD [])
    let nm := o.name.getD ""
    ((o.id, ⟨o.x_mitre_shortname, nm, code⟩) :: acc.1,
     (o.x_mitre_shortname, ⟨nm, code⟩) :: acc.2)
  else acc

/-- Lines 17-40: build `tactics_by_id` and `tactics_by_shortname`. -/
def buildTactics (objs : List StixObject) :
    List (Option String × TacticRecId) × List (Option String × TacticRec) :=
  objs.foldl tacticStep ([], [])

/-- `phase.get("kill_chain_name") in kill_chain_key` (line 63): `None` is
never a member of the tuple of strings. -/
def acceptKillChain (kck : List String) : Option String → Bool
  | some n => kck.contains n
  | none => false

/-- The row dict appended at lines 67-72 and 77-82. -/
def rowOf (t : TacticRec) (tech_name tech_code : String) : Row :=
  ⟨t.tactic_name, t.tactic_id, tech_name, tech_code⟩

/-- Lines 44-82: the rows contributed by one STIX object to `rows`. -/
def patternRows (domain_name : String) (kck : List String)
    (byShort : List (Option String × TacticRec)) (o : StixObject) : List Row :=
  if o.type ≠ some "attack-pattern" then []
  else if truthy o.revoked || truthy o.x_mitre_deprecated then []
  else if ¬ (o.x_mitre_domains.getD []).contains domain_name then []
  else
    let tech_code := resolveCode (o.external_references.getD [])
    -- `"." in tech_code` is a substring test; for the one-character pattern
    -- "." it is exactly membership of '.' among the characters.
    if tech_code = "" ∨ tech_code.data.contains '.' then []
    else
      let tech_name := o.name.getD ""
      ((o.kill_chain_phases.getD []).filterMap fun phase =>
        if acceptKillChain kck phase.kill_chain_name then
          (List.lookup phase.phase_name byShort).map
            (fun t => rowOf t tech_name tech_code)
        else none)
      ++ ((o.x_mitre_tactics.getD []).filterMap fun short =>
        (List.lookup (some short) byShort).map
          (fun t => rowOf t tech_name tech_code))

/-- `drop_duplicates()` keeps the first occurrence of each row, in order;
`seen` is the set of rows already kept. -/
def dedupSeen (seen : List Row) : List Row → List Row
  | [] => []
  | r :: rs =>
    if r ∈ seen then dedupSeen seen rs
    else r :: dedupSeen (r :: seen) rs

/-- Line 84: `pd.DataFrame(rows).drop_duplicates()`. -/
def dropDuplicates (l : List Row) : List Row := dedupSeen [] l

/-- One iteration of the loop at lines 87-90 building `tactic_sort_order`
(tactic name, position); `p` is an `enumerate` pair `(i, tac_id)`. -/
def orderStep (byId : List (Option String × TacticRecId))
    (acc : List (String × Nat)) (p : Nat × String) : List (String × Nat) :=
  match List.lookup (some p.2) byId with
  | some r => (r.tactic_name, p.1) :: acc
  | none => acc

/-- Lines 87-90: `tactic_sort_order` as an association list (latest binding
first, as with `dedupSeen`'s dict model). -/
def tacticSortOrder (tactic_order : List String)
    (byId : List (Option String × TacticRecId)) : List (String × Nat) :=
  tactic_order.enum.foldl (orderStep byId) []

/-- The sort key of a row (line 92): `tactic_sort_order` lookup of the
tactic name; `none` models NaN. -/
def rowKey (tso : List (String × Nat)) (r : Row) : Option Nat :=
  List.lookup r.tactic_name tso

/-- Strict order on sort keys: NaN (`none`) sorts after every number
(`na_position="last"`). -/
def optNatLt : Option Nat → Option Nat → Bool
  | some x, some y => x < y
  | some _, none => true
  | none, _ => false

/-- The row order used by `sort_values(by=["tactic_sort", "technique_name"])`:
lexicographic on (key, technique_name). -/
def rowLe (tso : List (String × Nat)) (a b : Row) : Prop :=
  optNatLt (rowKey tso a) (rowKey tso b) = true ∨
    (rowKey tso a = rowKey tso b ∧ a.technique_name ≤ b.technique_name)

instance rowLeDecidable (tso : List (String × Nat)) : DecidableRel (rowLe tso) :=
  fun _ _ => inferInstanceAs (Decidable (_ ∨ _ ∧ _))

/-- Lines 8-95: the whole of `load_attack`.  `Except.error` models the
uncaught `KeyError` raised at line 92 when `rows` is empty (see the header
comment). -/
def load_attack (domain_name : String) (stix_data matrix_data : Bundle)
    (kill_chain_key : List String) : Except String (List Row) :=
  let tactic_order := extractTacticOrder (matrix_data.objects.getD [])
  let tacs := buildTactics (stix_data.objects.getD [])
  let rows := (stix_data.objects.getD []).flatMap
    (patternRows domain_name kill_chain_key tacs.2)
  if rows = [] then Except.error "KeyError: tactic_name"
  else
    let tso := tacticSortOrder tactic_order tacs.1
    Except.ok (List.insertionSort (rowLe tso) (dropDuplicates rows))

/-! Concrete inputs for the spec's scenarios: the two-tactic matrix
("Initial Access", "Execution") and an attack-pattern coded "T100". -/

/-- Tactic T1 of the scenario: "Initial Access" (TA0001). -/
def tacticObj1 : StixObject :=
  { type := some "x-mitre-tactic", id := some "x-mitre-tactic--1",
    x_mitre_shortname := some "initial-access", name := some "Initial Access",
    external_references := some [⟨some "mitre-attack", some "TA0001"⟩],
    revoked := none, x_mitre_deprecated := none, x_mitre_domains := none,
    kill_chain_phases := none, x_mitre_tactics := none, tactic_refs := none }

/-- Tactic T2 of the scenario: "Execution" (TA0002). -/
def tacticObj2 : StixObject :=
  { type := some "x-mitre-tactic", id := some "x-mitre-tactic--2",
    x_mitre_shortname := some "execution", name := some "Execution",
    external_references := some [⟨some "mitre-attack", some "TA0002"⟩],
    revoked := none, x_mitre_deprecated := none, x_mitre_domains := none,
    kill_chain_phases := none, x_mitre_tactics := none, tactic_refs := none }

/-- The scenario's attack-pattern: coded "T100", domain "enterprise-attack",
one kill-chain phase naming the "execution" tactic. -/
def apT100 : StixObject :=
  { type := some "attack-pattern", id := some "attack-pattern--1",
    x_mitre_shortname := none, name := some "Sample Technique",
    external_references := some [⟨some "mitre-attack", some "T100"⟩],
    revoked := none, x_mitre_deprecated := none,
    x_mitre_domains := some ["enterprise-attack"],
    kill_chain_phases := some [⟨some "mitre-attack", some "execution"⟩],
    x_mitre_tactics := none, tactic_refs := none }

/-- The scenario's matrix object with tactic_refs = [T1, T2]. -/
def matrixObj : StixObject :=
  { type := some "x-mitre-matrix", id := some "x-mitre-matrix--1",
    x_mitre_shortname := none, name := some "Enterprise ATT&CK",
    external_references := none, revoked := none, x_mitre_deprecated := none,
    x_mitre_domains := none, kill_chain_phases := none, x_mitre_tactics := none,
    tactic_refs := some ["x-mitre-tactic--1", "x-mitre-tactic--2"] }

/-- The scenario's STIX bundle. -/
def stixScenario : Bundle := ⟨some [tacticObj1, tacticObj2, apT100]⟩

/-- The scenario's matrix bundle. -/
def matrixScenario : Bundle := ⟨some [matrixObj]⟩

/-- The attack-pattern of the zero-row scenario: as apT100 but belonging to
the "ics-attack" domain only. -/
def apT100Ics : StixObject :=
  { apT100 with x_mitre_domains := some ["ics-attack"] }

/-- STIX bundle of the zero-row scenario. -/
def stixScenarioIcs : Bundle := ⟨some [tacticObj1, tacticObj2, apT100Ics]⟩

/-- As apT100 but also carrying the direct tactic list ["execution"], so both
association sources resolve to the same tactic. -/
def apT100Both : StixObject :=
  { apT100 with x_mitre_tactics := some ["execution"] }

/-- As apT100 but revoked. -/
def apT100Revoked : StixObject :=
  { apT100 with revoked := some true }

/-- A tactic object with no x_mitre_shortname field. -/
def tacticNoShort : StixObject :=
  { type := some "x-mitre-tactic", id := some "x-mitre-tactic--9",
    x_mitre_shortname := none, name := some "NoShort Tactic",
    external_references := some [⟨some "mitre-attack", some "TA0009"⟩],
    revoked := none, x_mitre_deprecated := none, x_mitre_domains := none,
    kill_chain_phases := none, x_mitre_tactics := none, tactic_refs := none }

/-- An attack-pattern whose kill-chain phase has an accepted kill_chain_name
but no phase_name field. -/
def apNoPhaseName : StixObject :=
  { type := some "attack-pattern", id := some "attack-pattern--9",
    x_mitre_shortname := none, name := some "Phaseless Technique",
    external_references := some [⟨some "mitre-attack", some "T200"⟩],
    revoked := none, x_mitre_deprecated := none,
    x_mitre_domains := some ["enterprise-attack"],
    kill_chain_phases := some [⟨some "mitre-attack", none⟩],
    x_mitre_tactics := none, tactic_refs := none }

/-! Helper lemmas about the deduplication pass. -/

theorem mem_dedupSeen (x : Row) (l : List Row) :
    ∀ seen, x ∈ dedupSeen seen l ↔ x ∈ l ∧ x ∉ seen := by
  induction l with
  | nil => intro seen; simp [dedupSeen]
  | cons r rs ih =>
    intro seen
    by_cases hr : r ∈ seen
    · rw [dedupSeen, if_pos hr, ih]
      constructor
      · rintro ⟨h1, h2⟩; exact ⟨List.mem_cons_of_mem _ h1, h2⟩
      · rintro ⟨h1, h2⟩
        rcases List.mem_cons.mp h1 with rfl | h1
        · exact absurd hr h2
        · exact ⟨h1, h2⟩
    · rw [dedupSeen, if_neg hr]
      simp only [List.mem_cons, ih]
      constructor
      · rintro (rfl | ⟨h1, h2⟩)
        · exact ⟨Or.inl rfl, hr⟩
        · exact ⟨Or.inr h1, fun hx => h2 (Or.inr hx)⟩
      · rintro ⟨rfl | h1, h2⟩
        · exact Or.inl rfl
        · by_cases hxr : x = r
          · exact Or.inl hxr
          · exact Or.inr ⟨h1, fun hx => hx.elim hxr h2⟩

theorem nodup_dedupSeen (l : List Row) : ∀ seen, (dedupSeen seen l).Nodup := by
  induction l with
  | nil => intro seen; simp [dedupSeen]
  | cons r rs ih =>
    intro seen
    rw [dedupSeen]
    split
    · exact ih _
    · refine List.nodup_cons.mpr ⟨?_, ih _⟩
      intro hmem
      rw [mem_dedupSeen] at hmem
      exact hmem.2 (List.mem_cons_self r seen)

theorem mem_dropDuplicates {x : Row} {l : List Row} :
    x ∈ dropDuplicates l ↔ x ∈ l := by
  rw [dropDuplicates, mem_dedupSeen]; simp

theorem nodup_dropDuplicates (l : List Row) : (dropDuplicates l).Nodup :=
  nodup_dedupSeen l []

/-! The row order is a total preorder, so the stable sort is well behaved. -/

theorem optNatLt_trans {a b c : Option Nat}
    (h1 : optNatLt a b = true) (h2 : optNatLt b c = true) :
    optNatLt a c = true := by
  match a, b, c with
  | some x, some y, some z =>
    simp only [optNatLt, decide_eq_true_eq] at h1 h2 ⊢; omega
  | some x, some y, none => simp [optNatLt]
  | some x, none, _ => simp [optNatLt] at h2
  | none, _, _ => simp [optNatLt] at h1

theorem optNatLt_connex (a b : Option Nat) :
    optNatLt a b = true ∨ a = b ∨ optNatLt b a = true := by
  match a, b with
  | some x, some y =>
    rcases Nat.lt_trichotomy x y with h | h | h
    · exact Or.inl (by simp [optNatLt, h])
    · exact Or.inr (Or.inl (by rw [h]))
    · exact Or.inr (Or.inr (by simp [optNatLt, h]))
  | some x, none => exact Or.inl (by simp [optNatLt])
  | none, some y => exact Or.inr (Or.inr (by simp [optNatLt]))
  | none, none => exact Or.inr (Or.inl rfl)

theorem rowLeTrans (tso : List (String × Nat)) : IsTrans Row (rowLe tso) := by
  refine ⟨fun a b c hab hbc => ?_⟩
  rcases hab with h1 | ⟨h1, h1s⟩ <;> rcases hbc with h2 | ⟨h2, h2s⟩
  · exact Or.inl (optNatLt_trans h1 h2)
  · exact Or.inl (h2 ▸ h1)
  · exact Or.inl (h1 ▸ h2)
  · exact Or.inr ⟨h1.trans h2, le_trans h1s h2s⟩

theorem rowLeTotal (tso : List (String × Nat)) : IsTotal Row (rowLe tso) := by
  refine ⟨fun a b => ?_⟩
  rcases optNatLt_connex (rowKey tso a) (rowKey tso b) with h | h | h
  · exact Or.inl (Or.inl h)
  · rcases le_total a.technique_name b.technique_name with hs | hs
    · exact Or.inl (Or.inr ⟨h, hs⟩)
    · exact Or.inr (Or.inr ⟨h.symm, hs⟩)
  · exact Or.inr (Or.inl h)

theorem load_attack_ok (d : String) (objs : List StixObject) (m : Bundle)
    (k : List String)
    (h : ¬ objs.flatMap (patternRows d k (buildTactics objs).2) = []) :
    load_attack d ⟨some objs⟩ m k =
      Except.ok (List.insertionSort
        (rowLe (tacticSortOrder (extractTacticOrder (m.objects.getD []))
          (buildTactics objs).1))
        (dropDuplicates (objs.flatMap (patternRows d k (buildTactics objs).2)))) := by
  simp only [load_attack, Option.getD_some]
  rw [if_neg h]

theorem technique_id_of_mem_patternRows {d : String} {k : List String}
    {bs : List (Option String × TacticRec)} {o : StixObject} {r : Row}
    (h : r ∈ patternRows d k bs o) :
    r.technique_id ≠ "" ∧ r.technique_id.data.contains '.' = false := by
  simp only [patternRows] at h
  split at h
  · exact absurd h (List.not_mem_nil r)
  · split at h
    · exact absurd h (List.not_mem_nil r)
    · split at h
      · exact absurd h (List.not_mem_nil r)
      · split at h
        · exact absurd h (List.not_mem_nil r)
        · next hcond =>
          have hne : resolveCode (o.external_references.getD []) ≠ "" :=
            fun hc => hcond (Or.inl hc)
          have hdot : (resolveCode (o.external_references.getD [])).data.contains '.'
              = false := by
            rcases hb : (resolveCode (o.external_references.getD [])).data.contains '.'
            · rfl
            · exact absurd (Or.inr hb) hcond
          rcases List.mem_append.mp h with h | h
          · obtain ⟨phase, _, heq⟩ := List.mem_filterMap.mp h
            split at heq
            · obtain ⟨t, _, rfl⟩ := Option.map_eq_some'.mp heq
              exact ⟨hne, hdot⟩
            · exact Option.noConfusion heq
          · obtain ⟨short, _, heq⟩ := List.mem_filterMap.mp h
            obtain ⟨t, _, rfl⟩ := Option.map_eq_some'.mp heq
            exact ⟨hne, hdot⟩

theorem patternRows_eq_nil_of_flag {d : String} {k : List String}
    {bs : List (Option String × TacticRec)} {o : StixObject}
    (h : truthy o.revoked = true ∨ truthy o.x_mitre_deprecated = true) :
    patternRows d k bs o = [] := by
  rw [patternRows]
  split
  · rfl
  · rw [if_pos (by rcases h with h | h <;> simp [h])]

theorem mem_patternRows_kc {d : String} {k : List String}
    {bs : List (Option String × TacticRec)} {o : StixObject}
    {phase : KillChainPhase} {t : TacticRec}
    (htype : o.type = some "attack-pattern")
    (hrev : truthy o.revoked = false) (hdep : truthy o.x_mitre_deprecated = false)
    (hdom : (o.x_mitre_domains.getD []).contains d = true)
    (hne : resolveCode (o.external_references.getD []) ≠ "")
    (hdot : (resolveCode (o.external_references.getD [])).data.contains '.' = false)
    (hph : phase ∈ o.kill_chain_phases.getD [])
    (hkc : acceptKillChain k phase.kill_chain_name = true)
    (hlook : List.lookup phase.phase_name bs = some t) :
    rowOf t (o.name.getD "") (resolveCode (o.external_references.getD [])) ∈
      patternRows d k bs o := by
  have h4 : ¬(resolveCode (o.external_references.getD []) = "" ∨
      (resolveCode (o.external_references.getD [])).data.contains '.' = true) := by
    rintro (hc | hc)
    · exact hne hc
    · rw [hdot] at hc; exact Bool.noConfusion hc
  simp only [patternRows]
  rw [if_neg (by rw [htype]; simp), if_neg (by rw [hrev, hdep]; simp),
    if_neg (not_not_intro hdom), if_neg h4]
  refine List.mem_append_left _ (List.mem_filterMap.mpr ⟨phase, hph, ?_⟩)
  rw [if_pos hkc, hlook]
  rfl

theorem load_attack_count_one {d : String} {k : List String}
    {objs : List StixObject} {o : StixObject} {r : Row} (m : Bundle)
    (hmem : o ∈ objs) (hr : r ∈ patternRows d k (buildTactics objs).2 o) :
    ∃ rows, load_attack d ⟨some objs⟩ m k = Except.ok rows ∧
      r ∈ rows ∧ List.count r rows = 1 := by
  have hrows : r ∈ objs.flatMap (patternRows d k (buildTactics objs).2) :=
    List.mem_flatMap.mpr ⟨o, hmem, hr⟩
  have hne := List.ne_nil_of_mem hrows
  refine ⟨_, load_attack_ok d objs m k hne, ?_, ?_⟩
  · rw [(List.perm_insertionSort _ _).mem_iff, mem_dropDuplicates]
    exact hrows
  · rw [(List.perm_insertionSort _ _).count_eq]
    exact List.count_eq_one_of_mem (nodup_dropDuplicates _)
      (mem_dropDuplicates.mpr hrows)

theorem lookup_cons_isSome {β : Type} (key : Option String)
    (p : Option String × β) (l : List (Option String × β))
    (h : ∃ v, List.lookup key l = some v) :
    ∃ v, List.lookup key (p :: l) = some v := by
  obtain ⟨kk, b⟩ := p
  simp only [List.lookup]
  split
  · exact ⟨b, rfl⟩
  · exact h

theorem lookup_cons_self {β : Type} (key : Option String) (b : β)
    (l : List (Option String × β)) :
    List.lookup key ((key, b) :: l) = some b := by
  simp [List.lookup]

theorem lookup_buildTactics_aux (objs : List StixObject) :
    ∀ (acc : List (Option String × TacticRecId) × List (Option String × TacticRec))
      (key : Option String),
      ((∃ v, List.lookup key acc.2 = some v) ∨
        ∃ o ∈ objs, o.type = some "x-mitre-tactic" ∧ o.x_mitre_shortname = key) →
      ∃ v, List.lookup key (objs.foldl tacticStep acc).2 = some v := by
  induction objs with
  | nil =>
    intro acc key h
    rcases h with h | ⟨o, ho, _⟩
    · simpa using h
    · exact absurd ho (List.not_mem_nil o)
  | cons o os ih =>
    intro acc key h
    rw [List.foldl_cons]
    apply ih
    rcases h with h | ⟨o', ho', ht', hk'⟩
    · left
      rw [tacticStep]
      split
      · exact lookup_cons_isSome _ _ _ h
      · exact h
    · rcases List.mem_cons.mp ho' with rfl | ho'
      · left
        rw [tacticStep, if_pos ht', ← hk']
        exact ⟨_, lookup_cons_self _ _ _⟩
      · exact Or.inr ⟨o', ho', ht', hk'⟩

theorem lookup_buildTactics_of_mem {objs : List StixObject} {o : StixObject}
    (ho : o ∈ objs) (ht : o.type = some "x-mitre-tactic") :
    ∃ v, List.lookup o.x_mitre_shortname (buildTactics objs).2 = some v :=
  lookup_buildTactics_aux objs ([], []) o.x_mitre_shortname (Or.inr ⟨o, ho, ht, rfl⟩)

/-! The claims. -/

/-- Claim C1 (evaluation at the failing input): on an input retaining zero
rows — here both bundles carry an empty objects list — load_attack does not
return normally: pd.DataFrame([]) has no columns, so the column access
df["tactic_name"] at line 92 raises KeyError instead of degrading by
omission. -/
theorem load_attack_raises_on_zero_rows :
    load_attack "enterprise-attack" ⟨some []⟩ ⟨some []⟩ ["mitre-attack"] =
      Except.error "KeyError: tactic_name" := rfl

/-- Claim C2: no row of a normally returned load_attack result has an empty
technique_id or one containing the character ".". -/
theorem load_attack_no_subtechnique_rows (d : String) (s m : Bundle)
    (k : List String) (rows : List Row) (r : Row)
    (hok : load_attack d s m k = Except.ok rows) (hr : r ∈ rows) :
    r.technique_id ≠ "" ∧ r.technique_id.data.contains '.' = false := by
  simp only [load_attack] at hok
  split at hok
  · exact Except.noConfusion hok
  · injection hok with h
    subst h
    rw [(List.perm_insertionSort _ _).mem_iff, mem_dropDuplicates] at hr
    obtain ⟨o, _, hro⟩ := List.mem_flatMap.mp hr
    exact technique_id_of_mem_patternRows hro

/-- Witness for C2 at the one-row scenario. -/
theorem load_attack_no_subtechnique_rows_witness :
    (Row.mk "Execution" "TA0002" "Sample Technique" "T100").technique_id ≠ "" ∧
    (Row.mk "Execution" "TA0002" "Sample Technique" "T100").technique_id.data.contains '.'
      = false :=
  load_attack_no_subtechnique_rows "enterprise-attack" stixScenario matrixScenario
    ["mitre-attack"] [⟨"Execution", "TA0002", "Sample Technique", "T100"⟩]
    ⟨"Execution", "TA0002", "Sample Technique", "T100"⟩ rfl (by decide)

/-- Claim C3: an attack-pattern whose revoked or x_mitre_deprecated field is
truthy contributes no row: removing it from the STIX bundle leaves the
result of load_attack unchanged, whatever its other fields. -/
theorem load_attack_revoked_contributes_nothing (d : String)
    (l1 l2 : List StixObject) (o : StixObject) (m : Bundle) (k : List String)
    (htype : o.type = some "attack-pattern")
    (hflag : truthy o.revoked = true ∨ truthy o.x_mitre_deprecated = true) :
    load_attack d ⟨some (l1 ++ o :: l2)⟩ m k =
      load_attack d ⟨some (l1 ++ l2)⟩ m k := by
  have hstep : ∀ acc, tacticStep acc o = acc := by
    intro acc
    rw [tacticStep, if_neg]
    rw [htype]
    simp
  have hbt : buildTactics (l1 ++ o :: l2) = buildTactics (l1 ++ l2) := by
    rw [buildTactics, buildTactics, List.foldl_append, List.foldl_append,
      List.foldl_cons, hstep]
  have hpr : patternRows d k (buildTactics (l1 ++ l2)).2 o = [] :=
    patternRows_eq_nil_of_flag hflag
  simp only [load_attack, Option.getD_some, hbt, List.flatMap_append,
    List.flatMap_cons, hpr, List.nil_append]

/-- Witness for C3: removing a revoked copy of the T100 pattern changes
nothing. -/
theorem load_attack_revoked_contributes_nothing_witness :
    load_attack "enterprise-attack"
        ⟨some ([tacticObj1, tacticObj2] ++ apT100Revoked :: [apT100])⟩
        matrixScenario ["mitre-attack"] =
      load_attack "enterprise-attack" ⟨some ([tacticObj1, tacticObj2] ++ [apT100])⟩
        matrixScenario ["mitre-attack"] :=
  load_attack_revoked_contributes_nothing "enterprise-attack"
    [tacticObj1, tacticObj2] [apT100] apT100Revoked matrixScenario
    ["mitre-attack"] rfl (Or.inl rfl)

/-- Claim C4: a normally returned result never holds two identical rows. -/
theorem load_attack_output_nodup (d : String) (s m : Bundle) (k : List String)
    (rows : List Row) (hok : load_attack d s m k = Except.ok rows) :
    rows.Nodup := by
  simp only [load_attack] at hok
  split at hok
  · exact Except.noConfusion hok
  · injection hok with h
    subst h
    exact ((List.perm_insertionSort _ _).nodup_iff).mpr (nodup_dropDuplicates _)

/-- Witness for C4 at the one-row scenario. -/
theorem load_attack_output_nodup_witness :
    ([⟨"Execution", "TA0002", "Sample Technique", "T100"⟩] : List Row).Nodup :=
  load_attack_output_nodup "enterprise-attack" stixScenario matrixScenario
    ["mitre-attack"] _ rfl

/-- Claim C5: a normally returned result is sorted by (position of the
tactic in the matrix bundle's tactic_refs order, technique_name), rows with
no position sorting after all ranked rows. -/
theorem load_attack_output_sorted (d : String) (s m : Bundle) (k : List String)
    (rows : List Row) (hok : load_attack d s m k = Except.ok rows) :
    rows.Sorted (rowLe (tacticSortOrder (extractTacticOrder (m.objects.getD []))
      (buildTactics (s.objects.getD [])).1)) := by
  simp only [load_attack] at hok
  split at hok
  · exact Except.noConfusion hok
  · injection hok with h
    subst h
    haveI := rowLeTotal (tacticSortOrder (extractTacticOrder (m.objects.getD []))
      (buildTactics (s.objects.getD [])).1)
    haveI := rowLeTrans (tacticSortOrder (extractTacticOrder (m.objects.getD []))
      (buildTactics (s.objects.getD [])).1)
    exact List.sorted_insertionSort _ _

/-- Witness for C5 at the one-row scenario. -/
theorem load_attack_output_sorted_witness :
    ([⟨"Execution", "TA0002", "Sample Technique", "T100"⟩] : List Row).Sorted
      (rowLe (tacticSortOrder (extractTacticOrder (matrixScenario.objects.getD []))
        (buildTactics (stixScenario.objects.getD [])).1)) :=
  load_attack_output_sorted "enterprise-attack" stixScenario matrixScenario
    ["mitre-attack"] _ rfl

/-- Claim C6: when a retained attack-pattern carries both a kill-chain phase
(with accepted kill_chain_name) and an x_mitre_tactics entry resolving to the
same tactic shortname, the output holds exactly one row for that
(tactic, technique) pair: the two sources are unioned, not doubled. -/
theorem load_attack_union_single_row (d : String) (k : List String)
    (objs : List StixObject) (m : Bundle) (o : StixObject)
    (phase : KillChainPhase) (sn : String) (t : TacticRec)
    (hmem : o ∈ objs)
    (htype : o.type = some "attack-pattern")
    (hrev : truthy o.revoked = false)
    (hdep : truthy o.x_mitre_deprecated = false)
    (hdom : (o.x_mitre_domains.getD []).contains d = true)
    (hne : resolveCode (o.external_references.getD []) ≠ "")
    (hdot : (resolveCode (o.external_references.getD [])).data.contains '.' = false)
    (hph : phase ∈ o.kill_chain_phases.getD [])
    (hkc : acceptKillChain k phase.kill_chain_name = true)
    (hpn : phase.phase_name = some sn)
    (_hxt : sn ∈ o.x_mitre_tactics.getD [])
    (hlook : List.lookup (some sn) (buildTactics objs).2 = some t) :
    ∃ rows, load_attack d ⟨some objs⟩ m k = Except.ok rows ∧
      List.count (rowOf t (o.name.getD "")
        (resolveCode (o.external_references.getD []))) rows = 1 := by
  have hr := mem_patternRows_kc htype hrev hdep hdom hne hdot hph hkc
    (by rw [hpn]; exact hlook)
  obtain ⟨rows, hok, _, hcount⟩ := load_attack_count_one m hmem hr
  exact ⟨rows, hok, hcount⟩

/-- Witness for C6: the scenario pattern carrying both association sources
for "execution" yields that row exactly once. -/
theorem load_attack_union_single_row_witness :
    ∃ rows, load_attack "enterprise-attack"
        ⟨some [tacticObj1, tacticObj2, apT100Both]⟩ matrixScenario
        ["mitre-attack"] = Except.ok rows ∧
      List.count (rowOf ⟨"Execution", "TA0002"⟩ "Sample Technique" "T100") rows = 1 :=
  load_attack_union_single_row "enterprise-attack" ["mitre-attack"]
    [tacticObj1, tacticObj2, apT100Both] matrixScenario apT100Both
    ⟨some "mitre-attack", some "execution"⟩ "execution" ⟨"Execution", "TA0002"⟩
    (by decide) rfl rfl rfl (by decide) (by decide) (by decide) (by decide)
    (by decide) rfl (by decide) (by decide)

/-- Claim C7: the one-row scenario — matrix order [Initial Access,
Execution], pattern T100 in enterprise-attack with one execution kill-chain
phase — yields exactly the Execution/T100 row. -/
theorem load_attack_scenario_one_row :
    load_attack "enterprise-attack" stixScenario matrixScenario ["mitre-attack"] =
      Except.ok [⟨"Execution", "TA0002", "Sample Technique", "T100"⟩] := rfl

/-- Claim C8 (evaluation at the failing input): the same scenario with the
pattern in the ics-attack domain retains zero rows, and the code then raises
KeyError at line 92 instead of returning the empty result the spec
promises. -/
theorem load_attack_scenario_ics_raises :
    load_attack "enterprise-attack" stixScenarioIcs matrixScenario ["mitre-attack"] =
      Except.error "KeyError: tactic_name" := rfl

/-- Claim C9: the resolved code is the external_id (default "") of the first
external reference whose source_name is "mitre-attack", the empty string
when no such entry exists, and references after the first match never affect
the result. -/
theorem resolveCode_first_match :
    (∀ refs : List ExternalRef,
      resolveCode refs =
        ((refs.find? fun r => r.source_name == some "mitre-attack").map
          fun r => r.external_id.getD "").getD "") ∧
    (∀ refs rest rest2 : List ExternalRef,
      (refs.find? fun r => r.source_name == some "mitre-attack").isSome = true →
      resolveCode (refs ++ rest) = resolveCode (refs ++ rest2)) := by
  constructor
  · intro refs
    induction refs with
    | nil => rfl
    | cons r rs ih =>
      rw [resolveCode]
      by_cases h : r.source_name = some "mitre-attack"
      · rw [if_pos h, List.find?_cons_of_pos _ (by simp [h])]
        rfl
      · rw [if_neg h, List.find?_cons_of_neg _ (by simp [h]), ih]
  · intro refs rest rest2 hsome
    induction refs with
    | nil => simp [List.find?] at hsome
    | cons r rs ih =>
      rw [List.cons_append, List.cons_append, resolveCode, resolveCode]
      by_cases h : r.source_name = some "mitre-attack"
      · rw [if_pos h, if_pos h]
      · rw [if_neg h, if_neg h]
        apply ih
        rwa [List.find?_cons_of_neg _ (by simp [h])] at hsome

/-- Witness for C9: a matching head resolves to its external_id, and what
follows the first match is irrelevant. -/
theorem resolveCode_first_match_witness :
    resolveCode [⟨some "mitre-attack", some "TA0001"⟩] = "TA0001" ∧
    resolveCode ([⟨some "mitre-attack", some "TA0001"⟩] ++
        [⟨some "mitre-attack", some "TA9999"⟩]) =
      resolveCode ([⟨some "mitre-attack", some "TA0001"⟩] ++ []) := by
  constructor
  · rw [resolveCode_first_match.1]
    rfl
  · exact resolveCode_first_match.2 _ _ _ (by decide)

/-- Claim C10: a tactic with no x_mitre_shortname is stored in the shortname
lookup under the absent (none) key, and a retained pattern whose kill-chain
phase has an accepted kill_chain_name but no phase_name resolves to that
entry, so a row is emitted rather than the association being skipped. -/
theorem load_attack_shortnameless_tactic :
    (∀ (objs : List StixObject) (o : StixObject), o ∈ objs →
      o.type = some "x-mitre-tactic" → o.x_mitre_shortname = none →
      ∃ v, List.lookup (none : Option String) (buildTactics objs).2 = some v) ∧
    (∀ (d : String) (k : List String) (objs : List StixObject) (m : Bundle)
      (o : StixObject) (phase : KillChainPhase) (t : TacticRec),
      o ∈ objs → o.type = some "attack-pattern" →
      truthy o.revoked = false → truthy o.x_mitre_deprecated = false →
      (o.x_mitre_domains.getD []).contains d = true →
      resolveCode (o.external_references.getD []) ≠ "" →
      (resolveCode (o.external_references.getD [])).data.contains '.' = false →
      phase ∈ o.kill_chain_phases.getD [] →
      acceptKillChain k phase.kill_chain_name = true →
      phase.phase_name = none →
      List.lookup (none : Option String) (buildTactics objs).2 = some t →
      ∃ rows, load_attack d ⟨some objs⟩ m k = Except.ok rows ∧
        rowOf t (o.name.getD "") (resolveCode (o.external_references.getD []))
          ∈ rows) := by
  constructor
  · intro objs o ho ht hs
    have h := lookup_buildTactics_of_mem ho ht
    rwa [hs] at h
  · intro d k objs m o phase t hmem htype hrev hdep hdom hne hdot hph hkc hpn hlook
    have hr := mem_patternRows_kc htype hrev hdep hdom hne hdot hph hkc
      (by rw [hpn]; exact hlook)
    obtain ⟨rows, hok, hmem2, _⟩ := load_attack_count_one m hmem hr
    exact ⟨rows, hok, hmem2⟩

/-- Witness for C10: a shortname-less tactic paired with a phase-name-less
kill-chain phase produces a row. -/
theorem load_attack_shortnameless_tactic_witness :
    (∃ v, List.lookup (none : Option String)
        (buildTactics [tacticNoShort, apNoPhaseName]).2 = some v) ∧
    (∃ rows, load_attack "enterprise-attack" ⟨some [tacticNoShort, apNoPhaseName]⟩
        ⟨some []⟩ ["mitre-attack"] = Except.ok rows ∧
      rowOf ⟨"NoShort Tactic", "TA0009"⟩ "Phaseless Technique" "T200" ∈ rows) :=
  ⟨load_attack_shortnameless_tactic.1 [tacticNoShort, apNoPhaseName] tacticNoShort
      (by decide) rfl rfl,
    load_attack_shortnameless_tactic.2 "enterprise-attack" ["mitre-attack"]
      [tacticNoShort, apNoPhaseName] ⟨some []⟩ apNoPhaseName
      ⟨some "mitre-attack", none⟩ ⟨"NoShort Tactic", "TA0009"⟩
      (by decide) rfl rfl rfl (by decide) (by decide) (by decide) (by decide)
      (by decide) rfl (by decide)⟩

end MitreAttack
